import Mathlib

/-!
Verification of the WebX Journal local cryptographic envelope subsystem.

The JavaScript source (src/crypto.js, src/auth.js, src/ui.js, src/main.js,
including the several rewritten iterations of each module that the repository
keeps side by side) is shallowly embedded below.  Byte sequences are modelled
as `List Nat` with every element below 256, JavaScript strings handling binary
data as `List Char`, and fallible operations as `Option`/`Except`.  External
platform primitives (WebCrypto AES-GCM and PBKDF2, the text encoder) are not
part of the repository; where a claim depends on them they are modelled from
the spec and marked as such in their doc comments.
-/

namespace WebXJournal

/-- Modelled from the spec: `TextEncoder().encode` (src/crypto.js `strToUint8`),
an external platform primitive.  All payloads the source encodes here are
ASCII, so the encoder is modelled as the character-code map, reduced mod 256 to
keep the byte invariant. -/
def strToUint8 (s : String) : List Nat :=
  s.data.map (fun c => c.toNat % 256)

/-- The 64 characters of the standard base64 alphabet used by `btoa`/`atob`. -/
def base64Chars : List Char :=
  [ 'A', 'B', 'C', 'D', 'E', 'F', 'G', 'H', 'I', 'J', 'K', 'L', 'M',
    'N', 'O', 'P', 'Q', 'R', 'S', 'T', 'U', 'V', 'W', 'X', 'Y', 'Z',
    'a', 'b', 'c', 'd', 'e', 'f', 'g', 'h', 'i', 'j', 'k', 'l', 'm',
    'n', 'o', 'p', 'q', 'r', 's', 't', 'u', 'v', 'w', 'x', 'y', 'z',
    '0', '1', '2', '3', '4', '5', '6', '7', '8', '9', '+', '/' ]

/-- Maps a sextet (0..63) to its base64 character. -/
def sextetToChar (s : Nat) : Char :=
  base64Chars.getD s '='

/-- Maps a base64 character back to its sextet, as `atob` does. -/
def charToSextet (c : Char) : Nat :=
  base64Chars.indexOf c

/-- Embeds src/crypto.js `uint8ToBase64` (btoa over the byte string): standard
base64 with `=` padding, three bytes per four output characters. -/
def uint8ToBase64 : List Nat → List Char
  | [] => []
  | [b1] =>
      [sextetToChar (b1 / 4), sextetToChar (b1 % 4 * 16), '=', '=']
  | [b1, b2] =>
      [sextetToChar (b1 / 4), sextetToChar (b1 % 4 * 16 + b2 / 16),
       sextetToChar (b2 % 16 * 4), '=']
  | b1 :: b2 :: b3 :: rest =>
      sextetToChar (b1 / 4) :: sextetToChar (b1 % 4 * 16 + b2 / 16) ::
      sextetToChar (b2 % 16 * 4 + b3 / 64) :: sextetToChar (b3 % 64) ::
      uint8ToBase64 rest

/-- Embeds src/crypto.js `base64ToUint8` (atob then per-character char codes):
decodes four characters to three bytes, honouring `=` padding. -/
def base64ToUint8 : List Char → List Nat
  | c1 :: c2 :: c3 :: c4 :: rest =>
      let s1 := charToSextet c1
      let s2 := charToSextet c2
      if c3 = '=' then
        [s1 * 4 + s2 / 16]
      else
        let s3 := charToSextet c3
        if c4 = '=' then
          [s1 * 4 + s2 / 16, s2 % 16 * 16 + s3 / 4]
        else
          (s1 * 4 + s2 / 16) :: (s2 % 16 * 16 + s3 / 4) ::
          (s3 % 4 * 64 + charToSextet c4) :: base64ToUint8 rest
  | _ => []

lemma charToSextet_sextetToChar {s : Nat} (h : s < 64) :
    charToSextet (sextetToChar s) = s := by
  have : ∀ t : Fin 64, charToSextet (sextetToChar t.val) = t.val := by decide
  exact this ⟨s, h⟩

lemma sextetToChar_ne_pad {s : Nat} (h : s < 64) : sextetToChar s ≠ '=' := by
  have : ∀ t : Fin 64, sextetToChar t.val ≠ '=' := by decide
  exact this ⟨s, h⟩

lemma base64_roundtrip (l : List Nat) (h : ∀ b ∈ l, b < 256) :
    base64ToUint8 (uint8ToBase64 l) = l := by
  induction l using uint8ToBase64.induct with
  | case1 =>
      simp [uint8ToBase64, base64ToUint8]
  | case2 b1 =>
      have hb1 : b1 < 256 := h b1 (by simp)
      have h1 : b1 / 4 < 64 := by omega
      have h2 : b1 % 4 * 16 < 64 := by omega
      simp only [uint8ToBase64, base64ToUint8, if_pos rfl, if_true,
        charToSextet_sextetToChar h1, charToSextet_sextetToChar h2]
      simp only [List.cons.injEq, and_true]
      omega
  | case3 b1 b2 =>
      have hb1 : b1 < 256 := h b1 (by simp)
      have hb2 : b2 < 256 := h b2 (by simp)
      have h1 : b1 / 4 < 64 := by omega
      have h2 : b1 % 4 * 16 + b2 / 16 < 64 := by omega
      have h3 : b2 % 16 * 4 < 64 := by omega
      simp only [uint8ToBase64, base64ToUint8,
        if_neg (sextetToChar_ne_pad h3), if_pos rfl, if_true,
        charToSextet_sextetToChar h1, charToSextet_sextetToChar h2,
        charToSextet_sextetToChar h3]
      simp only [List.cons.injEq, and_true]
      omega
  | case4 b1 b2 b3 rest ih =>
      have hb1 : b1 < 256 := h b1 (by simp)
      have hb2 : b2 < 256 := h b2 (by simp)
      have hb3 : b3 < 256 := h b3 (by simp)
      have h1 : b1 / 4 < 64 := by omega
      have h2 : b1 % 4 * 16 + b2 / 16 < 64 := by omega
      have h3 : b2 % 16 * 4 + b3 / 64 < 64 := by omega
      have h4 : b3 % 64 < 64 := by omega
      simp only [uint8ToBase64, base64ToUint8,
        if_neg (sextetToChar_ne_pad h3), if_neg (sextetToChar_ne_pad h4),
        charToSextet_sextetToChar h1, charToSextet_sextetToChar h2,
        charToSextet_sextetToChar h3, charToSextet_sextetToChar h4]
      have ihr : base64ToUint8 (uint8ToBase64 rest) = rest :=
        ih (fun b hb => h b (by simp [hb]))
      simp only [List.cons.injEq, ihr, and_true]
      omega

/-- C8: for every byte sequence b (all elements valid bytes), decoding the
encoded transportable form yields the original value exactly:
`base64ToUint8 (uint8ToBase64 b) = b`. -/
theorem c8_base64_codec_roundtrip (b : List Nat) (h : ∀ x ∈ b, x < 256) :
    base64ToUint8 (uint8ToBase64 b) = b :=
  base64_roundtrip b h

/-- Witness for C8 at a concrete five-byte input. -/
theorem c8_base64_codec_roundtrip_witness :
    (∀ x ∈ [0, 1, 77, 254, 255], x < 256) ∧
      base64ToUint8 (uint8ToBase64 [0, 1, 77, 254, 255]) = [0, 1, 77, 254, 255] :=
  ⟨by decide, c8_base64_codec_roundtrip [0, 1, 77, 254, 255] (by decide)⟩

/-- Kind of key-derivation primitive that produced a key.  The source declares
`ARGON2_PARAMS` (Argon2id) but derives through PBKDF2; the tag records which
primitive actually ran. -/
inductive KdfAlg where
  | argon2id
  | pbkdf2
deriving DecidableEq

/-- Opaque symmetric key material (a `CryptoKey` in the source): the primitive
that derived it together with its raw bytes. -/
structure KeyMaterial where
  alg : KdfAlg
  bytes : List Nat
deriving DecidableEq

/-- Modelled from the spec: the AES-GCM keystream byte at position `i` for a
given key and nonce.  WebCrypto `subtle.encrypt`/`subtle.decrypt` are external
platform primitives; the spec (SealedBox, section 4.2) requires an
authenticated cipher with combined ciphertext+tag semantics, which this
deterministic model provides. -/
def keystreamByte (key iv : List Nat) (i : Nat) : Nat :=
  (key.sum * 31 + iv.sum * 7 + i * 13 + 5) % 256

/-- Encryption pass of the model cipher: add the keystream pointwise, mod 256,
starting at stream position `i`. -/
def gcmEncBytes (key iv : List Nat) (i : Nat) : List Nat → List Nat
  | [] => []
  | b :: bs => (b + keystreamByte key iv i) % 256 :: gcmEncBytes key iv (i + 1) bs

/-- Decryption pass of the model cipher, inverse of `gcmEncBytes` on bytes. -/
def gcmDecBytes (key iv : List Nat) (i : Nat) : List Nat → List Nat
  | [] => []
  | c :: cs => (c + 256 - keystreamByte key iv i) % 256 :: gcmDecBytes key iv (i + 1) cs

/-- Modelled from the spec: the 16-byte (128-bit) authentication tag over the
ciphertext, bound to key, nonce and ciphertext as AES-GCM requires. -/
def tagModel (key iv ct : List Nat) : List Nat :=
  (List.range 16).map (fun j => (key.sum + iv.sum * 3 + ct.sum * 7 + ct.length * 11 + j) % 256)

/-- Modelled from the spec: `window.crypto.subtle.encrypt` for AES-GCM.  The
result is a single buffer `[ciphertext...][authentication tag (16 bytes)]`. -/
def subtleEncrypt (key iv data : List Nat) : List Nat :=
  gcmEncBytes key iv 0 data ++ tagModel key iv (gcmEncBytes key iv 0 data)

/-- Modelled from the spec: `window.crypto.subtle.decrypt` for AES-GCM.  The
input buffer must carry at least the 16-byte tag; the tag is recomputed and a
mismatch is rejected (`none`, the AuthenticationError channel). -/
def subtleDecrypt (key iv buf : List Nat) : Option (List Nat) :=
  if buf.length < 16 then none
  else
    let ct := buf.take (buf.length - 16)
    let tag := buf.drop (buf.length - 16)
    if tag = tagModel key iv ct then some (gcmDecBytes key iv 0 ct) else none

lemma gcmEncBytes_length (key iv : List Nat) (i : Nat) (bs : List Nat) :
    (gcmEncBytes key iv i bs).length = bs.length := by
  induction bs generalizing i with
  | nil => rfl
  | cons b bs ih => simp [gcmEncBytes, ih]

lemma gcmEncBytes_lt (key iv : List Nat) (i : Nat) (bs : List Nat) :
    ∀ x ∈ gcmEncBytes key iv i bs, x < 256 := by
  induction bs generalizing i with
  | nil => intro x hx; simp [gcmEncBytes] at hx
  | cons b bs ih =>
      intro x hx
      simp only [gcmEncBytes, List.mem_cons] at hx
      rcases hx with h | h
      · omega
      · exact ih (i + 1) x h

lemma tagModel_length (key iv ct : List Nat) : (tagModel key iv ct).length = 16 := by
  simp [tagModel]

lemma tagModel_lt (key iv ct : List Nat) : ∀ x ∈ tagModel key iv ct, x < 256 := by
  intro x hx
  simp only [tagModel, List.mem_map, List.mem_range] at hx
  obtain ⟨j, _, rfl⟩ := hx
  omega

lemma gcmDecBytes_gcmEncBytes (key iv : List Nat) (i : Nat) (bs : List Nat)
    (h : ∀ b ∈ bs, b < 256) :
    gcmDecBytes key iv i (gcmEncBytes key iv i bs) = bs := by
  induction bs generalizing i with
  | nil => rfl
  | cons b bs ih =>
      have hb : b < 256 := h b (by simp)
      have hks : keystreamByte key iv i < 256 := Nat.mod_lt _ (by omega)
      simp only [gcmEncBytes, gcmDecBytes, List.cons.injEq]
      refine ⟨by omega, ih (i + 1) (fun x hx => h x (by simp [hx]))⟩

lemma subtleDecrypt_subtleEncrypt (key iv data : List Nat)
    (h : ∀ b ∈ data, b < 256) :
    subtleDecrypt key iv (subtleEncrypt key iv data) = some data := by
  unfold subtleEncrypt subtleDecrypt
  have hct := gcmEncBytes_length key iv 0 data
  have htag := tagModel_length key iv (gcmEncBytes key iv 0 data)
  have hlen : (gcmEncBytes key iv 0 data ++ tagModel key iv (gcmEncBytes key iv 0 data)).length
      = data.length + 16 := by
    simp [hct, htag]
  rw [if_neg (by omega)]
  have hsplit : (gcmEncBytes key iv 0 data ++ tagModel key iv (gcmEncBytes key iv 0 data)).length
      - 16 = (gcmEncBytes key iv 0 data).length := by omega
  rw [hsplit, List.take_left, List.drop_left, if_pos rfl,
    gcmDecBytes_gcmEncBytes key iv 0 data h]

/-- Result of src/crypto.js `encrypt`: the base64-encoded IV, ciphertext and
authentication tag. -/
structure EncryptedPayload where
  iv : List Char
  ciphertext : List Char
  authTag : List Char
deriving DecidableEq

/-- Embeds src/crypto.js `encrypt`: runs AES-GCM, splits the 16-byte tag off
the end of the combined buffer, and base64-encodes the three parts.  The
randomly sampled 96-bit IV is passed in explicitly as `iv`. -/
def encrypt (data : List Nat) (key : KeyMaterial) (iv : List Nat) : EncryptedPayload :=
  let cipher := subtleEncrypt key.bytes iv data
  let authTag := cipher.drop (cipher.length - 16)
  let ciphertext := cipher.take (cipher.length - 16)
  { iv := uint8ToBase64 iv
    ciphertext := uint8ToBase64 ciphertext
    authTag := uint8ToBase64 authTag }

/-- Embeds src/crypto.js `decrypt`: base64-decodes the parts, re-concatenates
ciphertext and tag, and runs authenticated AES-GCM decryption.  `none` is the
AuthenticationError / failure channel of the source (its thrown error). -/
def decrypt (ciphertextBase64 ivBase64 authTagBase64 : List Char) (key : KeyMaterial) :
    Option (List Nat) :=
  let iv := base64ToUint8 ivBase64
  let ciphertext := base64ToUint8 ciphertextBase64
  let authTag := base64ToUint8 authTagBase64
  subtleDecrypt key.bytes iv (ciphertext ++ authTag)

lemma take_sub_lt (l : List Nat) (n : Nat) (h : ∀ x ∈ l, x < 256) :
    ∀ x ∈ l.take n, x < 256 :=
  fun x hx => h x (List.mem_of_mem_take hx)

lemma drop_sub_lt (l : List Nat) (n : Nat) (h : ∀ x ∈ l, x < 256) :
    ∀ x ∈ l.drop n, x < 256 :=
  fun x hx => h x (List.mem_of_mem_drop hx)

lemma subtleEncrypt_lt (key iv data : List Nat) :
    ∀ x ∈ subtleEncrypt key iv data, x < 256 := by
  intro x hx
  unfold subtleEncrypt at hx
  rcases List.mem_append.mp hx with h | h
  · exact gcmEncBytes_lt key iv 0 data x h
  · exact tagModel_lt key iv _ x h

/-- C1: for every plaintext (as its byte sequence) and every derived key,
decrypting the result of encrypting under that key — passing the returned
ciphertext, iv and authTag back with the same key — returns exactly the
original plaintext. -/
theorem c1_encrypt_decrypt_roundtrip (data iv : List Nat) (key : KeyMaterial)
    (hdata : ∀ b ∈ data, b < 256) (hiv : ∀ b ∈ iv, b < 256) :
    decrypt (encrypt data key iv).ciphertext (encrypt data key iv).iv
      (encrypt data key iv).authTag key = some data := by
  unfold encrypt decrypt
  simp only
  rw [base64_roundtrip iv hiv,
    base64_roundtrip _ (take_sub_lt _ _ (subtleEncrypt_lt key.bytes iv data)),
    base64_roundtrip _ (drop_sub_lt _ _ (subtleEncrypt_lt key.bytes iv data)),
    List.take_append_drop,
    subtleDecrypt_subtleEncrypt key.bytes iv data hdata]

/-- Witness for C1 at a concrete plaintext, key and IV. -/
theorem c1_encrypt_decrypt_roundtrip_witness :
    (∀ b ∈ [72, 105, 33], b < 256) ∧
      decrypt (encrypt [72, 105, 33] ⟨KdfAlg.pbkdf2, [9, 8, 7]⟩
          [0, 1, 2, 3, 4, 5, 6, 7, 8, 9, 10, 11]).ciphertext
        (encrypt [72, 105, 33] ⟨KdfAlg.pbkdf2, [9, 8, 7]⟩
          [0, 1, 2, 3, 4, 5, 6, 7, 8, 9, 10, 11]).iv
        (encrypt [72, 105, 33] ⟨KdfAlg.pbkdf2, [9, 8, 7]⟩
          [0, 1, 2, 3, 4, 5, 6, 7, 8, 9, 10, 11]).authTag
        ⟨KdfAlg.pbkdf2, [9, 8, 7]⟩ = some [72, 105, 33] :=
  ⟨by decide,
    c1_encrypt_decrypt_roundtrip [72, 105, 33]
      [0, 1, 2, 3, 4, 5, 6, 7, 8, 9, 10, 11]
      ⟨KdfAlg.pbkdf2, [9, 8, 7]⟩ (by decide) (by decide)⟩

/-- Declared Argon2 parameters of src/crypto.js `ARGON2_PARAMS`. -/
structure Argon2Params where
  memory : Nat
  iterations : Nat
  parallelism : Nat
  hashLen : Nat
  type : Nat
deriving DecidableEq

/-- Embeds src/crypto.js `ARGON2_PARAMS`: 64 MiB, 3 iterations, parallelism 1,
32-byte output, type 2 (Argon2id). -/
def ARGON2_PARAMS : Argon2Params :=
  { memory := 64 * 1024
    iterations := 3
    parallelism := 1
    hashLen := 32
    type := 2 }

/-- Modelled from the spec: the WebCrypto PBKDF2-SHA-256 primitive
(`subtle.importKey` plus `subtle.deriveKey`), an external platform primitive.
Modelled as a deterministic 32-byte function of password, salt and iteration
count. -/
def pbkdf2Model (password : String) (salt : List Nat) (iterations : Nat) : List Nat :=
  (List.range 32).map
    (fun i => ((strToUint8 password).sum * 131 + salt.sum * 37 + iterations + i * 3) % 256)

/-- Embeds src/crypto.js `deriveKeyFromPassword`: despite the declared
`ARGON2_PARAMS`, the body never attempts Argon2 — it unconditionally derives
through PBKDF2 with 100000 iterations of SHA-256 and returns that key.  The
`Except` error channel is the thrown
`Failed to derive encryption key` path, reachable only if the PBKDF2 primitive
itself threw, which the model primitive never does. -/
def deriveKeyFromPassword (password : String) (salt : List Nat) :
    Except String KeyMaterial :=
  Except.ok { alg := KdfAlg.pbkdf2, bytes := pbkdf2Model password salt 100000 }

/-- C3 (code_bug evaluation): for every password and salt, key derivation never
signals a DerivationError for Argon2 being unavailable — it silently
substitutes PBKDF2 and still returns a key, although `ARGON2_PARAMS` declares
Argon2id (type 2).  This contradicts the claim that the operation would signal
a DerivationError rather than degrade to a different KDF. -/
theorem c3_derivation_silently_substitutes_pbkdf2 (password : String) (salt : List Nat) :
    (∃ k, deriveKeyFromPassword password salt = Except.ok k ∧
        k.alg = KdfAlg.pbkdf2 ∧ k.alg ≠ KdfAlg.argon2id) ∧
      ARGON2_PARAMS.type = 2 :=
  ⟨⟨{ alg := KdfAlg.pbkdf2, bytes := pbkdf2Model password salt 100000 },
    rfl, rfl, fun hcontra => KdfAlg.noConfusion hcontra⟩, rfl⟩

/-- In-memory session state of src/auth.js (`currentAuth`): the username and
the derived encryption key, both absent while logged out. -/
structure AuthState where
  username : Option String
  encryptionKey : Option KeyMaterial
deriving DecidableEq

/-- Embeds the initial `currentAuth` value of src/auth.js: both fields null. -/
def authInit : AuthState :=
  { username := none, encryptionKey := none }

/-- Embeds src/auth.js `CURRENT_DATA_VERSION`. -/
def CURRENT_DATA_VERSION : Nat := 1

/-- Stored user profile of src/auth.js (first iteration): the record saved to
IndexedDB by `registerUser`, keyed by username, carrying the KDF salt and the
sealed identity payload. -/
structure Profile where
  username : String
  kdfSalt : List Nat
  encryptedIdentity : EncryptedPayload
  version : Nat
deriving DecidableEq

/-- The IndexedDB user-profile store, modelled as the list of saved profiles. -/
abbrev Store := List Profile

/-- Embeds src/storage.js `getUserProfile`: fetch the profile stored under the
given username key. -/
def getUserProfile (store : Store) (username : String) : Option Profile :=
  store.find? (fun p => p.username == username)

/-- Embeds src/auth.js `registerUser` (first iteration).  The sampled salt and
IV are passed in as `saltR`/`ivR`.  The identity payload sealed into the
profile is modelled by the username bytes (the field the login check reads
from the JSON payload).  Returns the success flag together with the updated
session state and store; every early-exit path returns `false` and leaves both
unchanged. -/
def registerUser (st : AuthState) (store : Store) (username masterPassword : String)
    (saltR ivR : List Nat) : Bool × AuthState × Store :=
  if username.length < 3 then (false, st, store)
  else if masterPassword.length < 8 then (false, st, store)
  else
    match getUserProfile store username with
    | some _ => (false, st, store)
    | none =>
      match deriveKeyFromPassword masterPassword saltR with
      | Except.error _ => (false, st, store)
      | Except.ok encryptionKey =>
        let encryptedIdentity := encrypt (strToUint8 username) encryptionKey ivR
        let profile : Profile :=
          { username := username
            kdfSalt := saltR
            encryptedIdentity := encryptedIdentity
            version := CURRENT_DATA_VERSION }
        (true, { username := some username, encryptionKey := some encryptionKey },
          store ++ [profile])

/-- Embeds src/auth.js `loginUser` (first iteration): re-derive the key from
the stored salt, verify the secret solely by authenticated decryption of the
stored sealed identity, and on success install username and key together. -/
def loginUser (st : AuthState) (store : Store) (username masterPassword : String) :
    Bool × AuthState :=
  if username = "" ∨ masterPassword = "" then (false, st)
  else
    match getUserProfile store username with
    | none => (false, st)
    | some storedProfile =>
      match deriveKeyFromPassword masterPassword storedProfile.kdfSalt with
      | Except.error _ => (false, st)
      | Except.ok encryptionKey =>
        match decrypt storedProfile.encryptedIdentity.ciphertext
            storedProfile.encryptedIdentity.iv
            storedProfile.encryptedIdentity.authTag encryptionKey with
        | none => (false, st)
        | some payload =>
          if payload ≠ strToUint8 username then (false, st)
          else (true, { username := some username, encryptionKey := some encryptionKey })

/-- Embeds src/auth.js `logoutUser`: null out both session fields. -/
def logoutUser (_st : AuthState) : AuthState :=
  { username := none, encryptionKey := none }

/-- Embeds src/auth.js `getCurrentEncryptionKey`: returns the session key
field as-is, null included. -/
def getCurrentEncryptionKey (st : AuthState) : Option KeyMaterial :=
  st.encryptionKey

/-- Embeds src/auth.js `getCurrentUsername`. -/
def getCurrentUsername (st : AuthState) : Option String :=
  st.username

/-- An authentication operation as observed by the session state: a
registration attempt, a login attempt, or a logout. -/
inductive AuthEvent where
  | register (username masterPassword : String) (saltR ivR : List Nat)
  | login (username masterPassword : String)
  | logout

/-- One authentication operation applied to session state and store. -/
def authStep : AuthState × Store → AuthEvent → AuthState × Store
  | (st, store), AuthEvent.register u p sr ir =>
      ((registerUser st store u p sr ir).2.1, (registerUser st store u p sr ir).2.2)
  | (st, store), AuthEvent.login u p => ((loginUser st store u p).2, store)
  | (st, store), AuthEvent.logout => (logoutUser st, store)

/-- A whole run of authentication operations from the fresh program state. -/
def runAuth (events : List AuthEvent) : AuthState × Store :=
  events.foldl authStep (authInit, [])

/-- The session-state consistency invariant: the current username is non-null
exactly when the current encryption key is non-null. -/
def sessionConsistent (st : AuthState) : Prop :=
  st.username.isSome = st.encryptionKey.isSome

lemma authStep_preserves (s : AuthState × Store) (e : AuthEvent)
    (h : sessionConsistent s.1) : sessionConsistent (authStep s e).1 := by
  obtain ⟨st, store⟩ := s
  cases e with
  | register u p sr ir =>
      simp only [authStep]
      unfold registerUser
      split
      · exact h
      · split
        · exact h
        · split
          · exact h
          · split
            · exact h
            · simp [sessionConsistent]
  | login u p =>
      simp only [authStep]
      unfold loginUser
      split
      · exact h
      · split
        · exact h
        · split
          · exact h
          · split
            · exact h
            · split
              · exact h
              · simp [sessionConsistent]
  | logout =>
      simp [authStep, logoutUser, sessionConsistent]

/-- C9: after every sequence of authentication operations (register, login,
logout, failed attempts included) starting from the fresh program state, the
in-memory session state is consistent: the current username is non-null if and
only if the current encryption key is non-null. -/
theorem c9_session_state_consistent (events : List AuthEvent) :
    sessionConsistent (runAuth events).1 := by
  have base : sessionConsistent authInit := rfl
  have : ∀ (s : AuthState × Store), sessionConsistent s.1 →
      sessionConsistent (events.foldl authStep s).1 := by
    induction events with
    | nil => intro s hs; exact hs
    | cons e es ih =>
        intro s hs
        exact ih (authStep s e) (authStep_preserves s e hs)
  exact this (authInit, []) base

/-- C10: every registration call with a username shorter than 3 characters or
a master password shorter than 8 characters returns false (without throwing),
persists no user profile, and establishes no session. -/
theorem c10_register_rejects_short_inputs (st : AuthState) (store : Store)
    (username masterPassword : String) (saltR ivR : List Nat)
    (h : username.length < 3 ∨ masterPassword.length < 8) :
    registerUser st store username masterPassword saltR ivR = (false, st, store) := by
  unfold registerUser
  rcases h with h | h
  · rw [if_pos h]
  · by_cases hu : username.length < 3
    · rw [if_pos hu]
    · rw [if_neg hu, if_pos h]

/-- Witness for C10: a two-character username is rejected with state and store
untouched. -/
theorem c10_register_rejects_short_inputs_witness :
    registerUser authInit [] "ab" "LongEnoughPw1" [] [] = (false, authInit, []) :=
  c10_register_rejects_short_inputs authInit [] "ab" "LongEnoughPw1" [] []
    (Or.inl (by decide))

/-- A stored journal entry of src/main.js: id, timestamp and the two encrypted
fields written by `handleSaveJournalEntry`. -/
structure EncEntry where
  id : Nat
  timestamp : Nat
  title : EncryptedPayload
  content : EncryptedPayload
deriving DecidableEq

/-- A decrypted journal entry as produced by `loadAllJournalEntries`. -/
structure DecEntry where
  id : Nat
  timestamp : Nat
  title : List Nat
  content : List Nat
deriving DecidableEq

/-- The placeholder title bytes the source substitutes for an entry whose
decryption failed. -/
def decryptionFailedTitle : List Nat :=
  strToUint8 "[Decryption Failed]"

/-- The placeholder content bytes for an entry whose decryption failed. -/
def decryptionFailedContent : List Nat :=
  strToUint8 "[Content not available due to decryption error]"

/-- Whether decrypting either field of an entry fails under the given key. -/
def entryFails (key : KeyMaterial) (e : EncEntry) : Bool :=
  (decrypt e.title.ciphertext e.title.iv e.title.authTag key).isNone ||
  (decrypt e.content.ciphertext e.content.iv e.content.authTag key).isNone

/-- Embeds the per-entry body of src/main.js `loadAllJournalEntries`: decrypt
title and content; on any decryption error return the placeholder entry
instead of failing. -/
def processEntry (key : KeyMaterial) (e : EncEntry) : DecEntry :=
  match decrypt e.title.ciphertext e.title.iv e.title.authTag key,
      decrypt e.content.ciphertext e.content.iv e.content.authTag key with
  | some t, some c => { id := e.id, timestamp := e.timestamp, title := t, content := c }
  | _, _ =>
      { id := e.id, timestamp := e.timestamp,
        title := decryptionFailedTitle, content := decryptionFailedContent }

/-- Embeds src/main.js `loadAllJournalEntries`: fails outright when no
encryption key is available, otherwise maps every stored entry through the
per-entry decryption with its internal error handling.  The final
newest-first display sort of the source is omitted here (ordering is display
concern, outside the envelope subsystem). -/
def loadAllJournalEntries (key : Option KeyMaterial) (entries : List EncEntry) :
    Except String (List DecEntry) :=
  match key with
  | none => Except.error "Encryption key not available. Please log in again."
  | some k => Except.ok (entries.map (processEntry k))

lemma countP_not_eq (p : EncEntry → Bool) (l : List EncEntry) :
    l.countP p + l.countP (fun e => !p e) = l.length := by
  induction l with
  | nil => simp
  | cons e es ih =>
      by_cases h : p e
      · simp [List.countP_cons, h]; omega
      · simp [List.countP_cons, h]; omega

/-- C6: for every batch load of N stored records of which exactly one fails to
decrypt, the load returns N records in place — the N-1 successfully decrypted
records at their positions plus one placeholder for the failing record — and
does not fail the whole batch. -/
theorem c6_batch_load_partial_failure (key : KeyMaterial) (entries : List EncEntry)
    (h : entries.countP (fun e => entryFails key e) = 1) :
    ∃ r, loadAllJournalEntries (some key) entries = Except.ok r ∧
      r.length = entries.length ∧
      entries.countP (fun e => !entryFails key e) = entries.length - 1 ∧
      (∀ i (hi : i < entries.length) (hr : i < r.length),
        (entryFails key entries[i] = true →
          r[i] = { id := entries[i].id, timestamp := entries[i].timestamp,
                   title := decryptionFailedTitle,
                   content := decryptionFailedContent }) ∧
        (∀ t c,
          decrypt entries[i].title.ciphertext entries[i].title.iv
              entries[i].title.authTag key = some t →
          decrypt entries[i].content.ciphertext entries[i].content.iv
              entries[i].content.authTag key = some c →
          r[i] = { id := entries[i].id, timestamp := entries[i].timestamp,
                   title := t, content := c })) := by
  refine ⟨entries.map (processEntry key), rfl, by simp, ?_, ?_⟩
  · have := countP_not_eq (fun e => entryFails key e) entries
    omega
  · intro i hi hr
    constructor
    · intro hfail
      rw [List.getElem_map]
      unfold processEntry
      unfold entryFails at hfail
      split
      · rename_i t c ht hc
        rw [ht, hc] at hfail
        simp at hfail
      · rfl
    · intro t c ht hc
      rw [List.getElem_map]
      unfold processEntry
      rw [ht, hc]

/-- Concrete test key for the C6 witness. -/
def c6Key : KeyMaterial :=
  { alg := KdfAlg.pbkdf2, bytes := [1, 2, 3] }

/-- Concrete three-entry batch for the C6 witness: entries 1 and 3 are intact,
entry 2 has its authentication tag replaced by zero bytes and fails. -/
def c6Entries : List EncEntry :=
  [ { id := 1, timestamp := 10,
      title := encrypt (strToUint8 "t1") c6Key [0, 1, 2, 3, 4, 5, 6, 7, 8, 9, 10, 11],
      content := encrypt (strToUint8 "c1") c6Key [1, 1, 2, 3, 4, 5, 6, 7, 8, 9, 10, 11] },
    { id := 2, timestamp := 20,
      title :=
        { iv := (encrypt (strToUint8 "t2") c6Key [2, 1, 2, 3, 4, 5, 6, 7, 8, 9, 10, 11]).iv
          ciphertext :=
            (encrypt (strToUint8 "t2") c6Key [2, 1, 2, 3, 4, 5, 6, 7, 8, 9, 10, 11]).ciphertext
          authTag :=
            uint8ToBase64 [0, 0, 0, 0, 0, 0, 0, 0, 0, 0, 0, 0, 0, 0, 0, 0] }
      content := encrypt (strToUint8 "c2") c6Key [3, 1, 2, 3, 4, 5, 6, 7, 8, 9, 10, 11] },
    { id := 3, timestamp := 30,
      title := encrypt (strToUint8 "t3") c6Key [4, 1, 2, 3, 4, 5, 6, 7, 8, 9, 10, 11],
      content := encrypt (strToUint8 "c3") c6Key [5, 1, 2, 3, 4, 5, 6, 7, 8, 9, 10, 11] } ]

/-- Witness for C6: the concrete three-entry batch with exactly one corrupted
entry loads as a full-length result, not a total failure. -/
theorem c6_batch_load_partial_failure_witness :
    c6Entries.countP (fun e => entryFails c6Key e) = 1 ∧
      ∃ r, loadAllJournalEntries (some c6Key) c6Entries = Except.ok r ∧
        r.length = c6Entries.length ∧
        c6Entries.countP (fun e => !entryFails c6Key e) = c6Entries.length - 1 ∧
        (∀ i (hi : i < c6Entries.length) (hr : i < r.length),
          (entryFails c6Key c6Entries[i] = true →
            r[i] = { id := c6Entries[i].id, timestamp := c6Entries[i].timestamp,
                     title := decryptionFailedTitle,
                     content := decryptionFailedContent }) ∧
          (∀ t c,
            decrypt c6Entries[i].title.ciphertext c6Entries[i].title.iv
                c6Entries[i].title.authTag c6Key = some t →
            decrypt c6Entries[i].content.ciphertext c6Entries[i].content.iv
                c6Entries[i].content.authTag c6Key = some c →
            r[i] = { id := c6Entries[i].id, timestamp := c6Entries[i].timestamp,
                     title := t, content := c })) :=
  ⟨by decide, c6_batch_load_partial_failure c6Key c6Entries (by decide)⟩

/-- C4 counterexample: in the LoggedOut state (the fresh program state), the
key accessor silently returns null instead of failing with a
NoActiveSessionError — refuting the claim that every such access fails. -/
theorem c4_counterexample_key_access_returns_null :
    getCurrentEncryptionKey authInit = none :=
  rfl

/-- C4 amended: whenever the session is LoggedOut (initially, or after any
logout), the key accessor returns null — never a stale key — and the
key-consuming operations treat the null key as an error (here:
`loadAllJournalEntries` fails instead of proceeding). -/
theorem c4_amended_loggedout_key_is_null_and_callers_fail :
    (∀ st : AuthState, getCurrentEncryptionKey (logoutUser st) = none) ∧
      getCurrentEncryptionKey authInit = none ∧
      (∀ entries : List EncEntry,
        loadAllJournalEntries none entries =
          Except.error "Encryption key not available. Please log in again.") :=
  ⟨fun _ => rfl, rfl, fun _ => rfl⟩

/-- Embeds src/ui.js `SESSION_DURATION_SECONDS` (5 minutes). -/
def SESSION_DURATION_SECONDS : Nat := 300

/-- Embeds src/auth.js `getAuthStatus().isLoggedIn` (second iteration): both
session fields present. -/
def isLoggedIn (st : AuthState) : Bool :=
  st.username.isSome && st.encryptionKey.isSome

/-- State of the src/ui.js session timer: the countdown value, the
once-per-session warning flag, the authentication state the timer acts on, and
the observable count of warning popups emitted (each `showWarningPopup` call
increments it). -/
structure TimerState where
  timeLeft : Nat
  warningShown : Bool
  auth : AuthState
  warningsEmitted : Nat
deriving DecidableEq

/-- Embeds src/ui.js `startSessionTimer` as it initialises the timer state:
full duration, warning flag reset, no warning shown yet. -/
def startSessionTimer (auth : AuthState) : TimerState :=
  { timeLeft := SESSION_DURATION_SECONDS
    warningShown := false
    auth := auth
    warningsEmitted := 0 }

/-- Embeds one firing of the src/ui.js `setInterval` callback of
`startSessionTimer` with zero activity between ticks: decrement the countdown,
show the warning once when at most 60 seconds remain, and once the countdown
is exhausted log the user out (discarding the key) if still logged in. -/
def sessionTick (s : TimerState) : TimerState :=
  if s.timeLeft > 0 then
    let t := s.timeLeft - 1
    if t ≤ 60 && !s.warningShown then
      { s with timeLeft := t, warningShown := true,
               warningsEmitted := s.warningsEmitted + 1 }
    else { s with timeLeft := t }
  else if isLoggedIn s.auth then { s with auth := logoutUser s.auth }
  else s

/-- The concrete active session the C5 scenario starts from. -/
def c5Session : TimerState :=
  startSessionTimer
    { username := some "alice"
      encryptionKey := some { alg := KdfAlg.pbkdf2, bytes := [7, 7, 7] } }

set_option maxRecDepth 4000 in
/-- C5: starting from a fresh Active session with zero activity events, no
warning is emitted before the final 60 seconds; the tick that brings the
remaining time down to the 60-second threshold emits the first and only
warning; and once the full session duration has elapsed with still no
activity, exactly one warning has been emitted in total and the session is
LoggedOut with the key discarded (the key accessor now yields nothing). -/
theorem c5_session_timer_single_warning_then_logout :
    (sessionTick^[239] c5Session).warningsEmitted = 0 ∧
      (sessionTick^[240] c5Session).warningsEmitted = 1 ∧
      (sessionTick^[240] c5Session).timeLeft = 60 ∧
      (sessionTick^[301] c5Session).warningsEmitted = 1 ∧
      isLoggedIn (sessionTick^[301] c5Session).auth = false ∧
      getCurrentEncryptionKey (sessionTick^[301] c5Session).auth = none := by
  refine ⟨?_, ?_, ?_, ?_, ?_, ?_⟩ <;> decide

/-- Envelope stored by the second auth.js iteration: base64 ciphertext (tag
folded into the combined buffer as WebCrypto emits it) and base64 IV. -/
structure EnvV2 where
  ciphertext : List Char
  iv : List Char
deriving DecidableEq

/-- Stored user profile of the second auth.js iteration: the fixed identity
slot with its base64-encoded KDF salt and sealed identity-check envelope. -/
structure ProfileV2 where
  username : String
  kdfSalt : List Char
  encryptedIdentity : EnvV2
  version : Nat
deriving DecidableEq

/-- The user-profile store of the second iteration. -/
abbrev StoreV2 := List ProfileV2

/-- Embeds `getUserProfile` as called by the second auth.js iteration. -/
def getUserProfileV2 (store : StoreV2) (username : String) : Option ProfileV2 :=
  store.find? (fun p => p.username == username)

/-- Modelled from the spec: `bytesToBase64` of the crypto.js iteration the
second auth.js imports, whose crypto.js file is absent from the sources; per
the Envelope Codec contract it is the byte-to-base64 encoding. -/
def bytesToBase64 (bytes : List Nat) : List Char :=
  uint8ToBase64 bytes

/-- Modelled from the spec: `base64ToBytes` of the absent crypto.js iteration,
inverse base64 decoding. -/
def base64ToBytes (base64 : List Char) : List Nat :=
  base64ToUint8 base64

/-- Modelled from the spec: `deriveKey` of the absent crypto.js iteration —
the KDF turning master password and salt into the session key. -/
def deriveKey (password : String) (salt : List Nat) : KeyMaterial :=
  { alg := KdfAlg.pbkdf2, bytes := pbkdf2Model password salt 100000 }

/-- Modelled from the spec: `encrypt` of the absent crypto.js iteration,
sealing under the key with the combined ciphertext+tag buffer kept whole. -/
def encryptV2 (data : List Nat) (key : KeyMaterial) (iv : List Nat) : EnvV2 :=
  { ciphertext := uint8ToBase64 (subtleEncrypt key.bytes iv data)
    iv := uint8ToBase64 iv }

/-- Modelled from the spec: `decrypt` of the absent crypto.js iteration,
authenticated opening of a combined envelope. -/
def decryptV2 (env : EnvV2) (key : KeyMaterial) : Option (List Nat) :=
  subtleDecrypt key.bytes (base64ToBytes env.iv) (base64ToBytes env.ciphertext)

/-- Embeds `loginUser` of the second auth.js iteration: loads the fixed
`qwerty` profile (throwing if absent), re-derives the key from the stored
salt, decrypts the stored identity-check envelope and compares it to the
`identity_check` marker; on success installs username and key. -/
def loginUserV2 (st : AuthState) (store : StoreV2) (masterPassword : String) :
    Except String (Bool × AuthState) :=
  match getUserProfileV2 store "qwerty" with
  | none => Except.error "User not registered. Please register first."
  | some userProfile =>
    let salt := base64ToBytes userProfile.kdfSalt
    let derivedKey := deriveKey masterPassword salt
    match decryptV2 userProfile.encryptedIdentity derivedKey with
    | none => Except.ok (false, st)
    | some decryptedIdentity =>
      if decryptedIdentity = strToUint8 "identity_check" then
        Except.ok (true, { username := some userProfile.username,
                           encryptionKey := some derivedKey })
      else Except.ok (false, st)

/-- Embeds src/auth.js `exportKeys` (second iteration): requires an active
username and returns the already-encrypted stored user profile — the record
that carries the persisted KDF salt — unchanged. -/
def exportKeys (st : AuthState) (store : StoreV2) : Except String ProfileV2 :=
  match st.username with
  | none => Except.error "No user logged in to export keys."
  | some currentUsername =>
    match getUserProfileV2 store currentUsername with
    | none => Except.error "User profile not found for export."
    | some userProfile => Except.ok userProfile

/-- The exported backup bundle of src/main.js `handleExportData`: the stored
user profile plus all stored (still encrypted) journal entries. -/
structure ExportBundle where
  userProfile : ProfileV2
  journalEntries : List EncEntry
deriving DecidableEq

/-- Embeds src/main.js `handleExportData`: prompt for the master password
(passed in here), re-authenticate, require the session key, then bundle the
stored profile from `exportKeys` with all stored encrypted entries. -/
def handleExportData (st : AuthState) (store : StoreV2) (entries : List EncEntry)
    (masterPassword : String) : Except String ExportBundle :=
  if masterPassword = "" then Except.error "Export cancelled."
  else
    match loginUserV2 st store masterPassword with
    | Except.error e => Except.error e
    | Except.ok (false, _) => Except.error "Incorrect master password. Export failed."
    | Except.ok (true, st') =>
      match getCurrentEncryptionKey st' with
      | none => Except.error "Encryption key not available after re-authentication."
      | some _ =>
        match exportKeys st' store with
        | Except.error e => Except.error e
        | Except.ok userProfile =>
          Except.ok { userProfile := userProfile, journalEntries := entries }

/-- C7: every successfully exported backup bundle carries exactly the stored
IdentityRecord of the active identity — including its persisted kdfSalt — and
the already-encrypted stored records; no freshly generated salt enters the
bundle. -/
theorem c7_export_reuses_stored_salt (st : AuthState) (store : StoreV2)
    (entries : List EncEntry) (masterPassword : String) (b : ExportBundle)
    (h : handleExportData st store entries masterPassword = Except.ok b) :
    ∃ profile, getUserProfileV2 store "qwerty" = some profile ∧
      b.userProfile = profile ∧
      b.userProfile.kdfSalt = profile.kdfSalt ∧
      b.journalEntries = entries := by
  unfold handleExportData loginUserV2 at h
  split at h
  · exact absurd h (by simp)
  · cases hfind : getUserProfileV2 store "qwerty" with
    | none => rw [hfind] at h; exact absurd h (by simp)
    | some userProfile =>
        have huser : userProfile.username = "qwerty" := by
          have := List.find?_some hfind
          simpa using this
        rw [hfind] at h
        simp only at h
        cases hdec : decryptV2 userProfile.encryptedIdentity
            (deriveKey masterPassword (base64ToBytes userProfile.kdfSalt)) with
        | none => rw [hdec] at h; exact absurd h (by simp)
        | some decryptedIdentity =>
            rw [hdec] at h
            simp only at h
            by_cases hid : decryptedIdentity = strToUint8 "identity_check"
            · rw [if_pos hid] at h
              simp only [getCurrentEncryptionKey] at h
              unfold exportKeys at h
              simp only [huser, hfind] at h
              simp only [Except.ok.injEq] at h
              exact ⟨userProfile, rfl, by rw [← h], by rw [← h], by rw [← h]⟩
            · rw [if_neg hid] at h
              exact absurd h (by simp)

/-- Concrete stored profile for the C7 witness: the salt persisted at
registration, base64-encoded, with the sealed identity-check envelope. -/
def c7Profile : ProfileV2 :=
  { username := "qwerty"
    kdfSalt := bytesToBase64 [10, 11, 12]
    encryptedIdentity :=
      encryptV2 (strToUint8 "identity_check")
        (deriveKey "pw123456" [10, 11, 12])
        [0, 1, 2, 3, 4, 5, 6, 7, 8, 9, 10, 11]
    version := 1 }

/-- Witness for C7: a concrete export succeeds and the theorem recovers that
its bundle holds the stored profile (stored salt included) and the stored
encrypted entries. -/
theorem c7_export_reuses_stored_salt_witness :
    handleExportData authInit [c7Profile] [] "pw123456" =
        Except.ok { userProfile := c7Profile, journalEntries := [] } ∧
      ∃ profile, getUserProfileV2 [c7Profile] "qwerty" = some profile ∧
        ExportBundle.userProfile { userProfile := c7Profile, journalEntries := [] } = profile ∧
        (ExportBundle.userProfile { userProfile := c7Profile, journalEntries := [] }).kdfSalt
          = profile.kdfSalt ∧
        ExportBundle.journalEntries { userProfile := c7Profile, journalEntries := [] } = [] :=
  ⟨by rfl,
    c7_export_reuses_stored_salt authInit [c7Profile] [] "pw123456"
      { userProfile := c7Profile, journalEntries := [] } (by rfl)⟩

/-- Stored user profile of the third auth.js iteration: the username together
with a stored base64-encoded password hash — the offline-verifiable credential
the spec forbids. -/
structure ProfileV3 where
  username : String
  hashedPassword : List Char
deriving DecidableEq

/-- Embeds src/utils.js `stringToUint8Array` as the third auth.js iteration
uses it to turn the username into the KDF salt. -/
def stringToUint8Array (s : String) : List Nat :=
  strToUint8 s

/-- Modelled from the spec: `crypto.deriveKey(password, salt, mode)` of the
crypto.js iteration the third auth.js imports, absent from the sources; a
deterministic KDF whose output depends on password, salt and the requested
mode (`hash` or `encryption`). -/
def deriveKeyMode (password : String) (salt : List Nat) (mode : String) : List Nat :=
  pbkdf2Model password (salt ++ strToUint8 mode) 100000

/-- Modelled from the spec: `crypto.compareHashes` of the absent crypto.js
iteration — the unauthenticated hash-equality comparison named by the claim. -/
def compareHashes (a b : List Nat) : Bool :=
  a == b

/-- Embeds src/auth.js `loginUser` (third, hash-comparison iteration): derives
a hash of the entered password with the username as salt and verifies the
secret by comparing it for equality against the stored `hashedPassword`
(`crypto.compareHashes`) — no authenticated decryption of any sealed envelope
is involved.  Error strings carry the source re-throw prefix. -/
def loginUserV3 (store : List ProfileV3) (username masterPassword : String) :
    Except String Bool :=
  if username = "" ∨ masterPassword = "" then
    Except.error "Username and password are required."
  else
    match store.find? (fun p => p.username == username) with
    | none => Except.error "Login failed: User not found."
    | some userProfile =>
      let storedHashedPassword := base64ToUint8 userProfile.hashedPassword
      let salt := stringToUint8Array username
      let inputHashedPassword := deriveKeyMode masterPassword salt "hash"
      if compareHashes inputHashedPassword storedHashedPassword then Except.ok true
      else Except.error "Login failed: Incorrect password."

/-- Stored profile of the hash-comparison iteration for a user registered with
the password `CorrectHorse1`. -/
def c2AliceProfile : ProfileV3 :=
  { username := "alice"
    hashedPassword :=
      uint8ToBase64 (deriveKeyMode "CorrectHorse1" (stringToUint8Array "alice") "hash") }

/-- C2 (code_bug evaluation): the third auth.js iteration verifies the secret
by an unauthenticated hash-equality comparison against the stored password
hash: at the concrete store, a wrong secret is rejected and the right secret
accepted purely by that comparison, with no sealed-envelope decryption
anywhere in the implementation path — refuting the claim that no such path
exists. -/
theorem c2_hash_equality_login_path_exists :
    loginUserV3 [c2AliceProfile] "alice" "WrongPassword" =
        Except.error "Login failed: Incorrect password." ∧
      loginUserV3 [c2AliceProfile] "alice" "CorrectHorse1" = Except.ok true ∧
      compareHashes (deriveKeyMode "WrongPassword" (stringToUint8Array "alice") "hash")
          (base64ToUint8 c2AliceProfile.hashedPassword) = false ∧
      compareHashes (deriveKeyMode "CorrectHorse1" (stringToUint8Array "alice") "hash")
          (base64ToUint8 c2AliceProfile.hashedPassword) = true := by
  refine ⟨by rfl, by rfl, by rfl, by rfl⟩

end WebXJournal
